import Mathlib

/-!
Shallow embedding of the provisioning / control-plane subsystem of the
SandboxGUI repository (`src/screenenv`), covering:

* the port allocator `DockerProvider._get_available_port` and the
  allocation loop inside `DockerProvider.start_emulator`
  (`src/screenenv/remote_provider/docker/provider.py`);
* the retry decorator `retry` (`src/screenenv/retry_decorator.py`);
* the health-check poller `DockerProvider._wait_for_vm_ready`;
* the provider lifecycle (`post_init`, `start_emulator`, `stop_emulator`,
  `get_ip_address`) and the orchestrator wrapper in
  `RemoteScreenEnv.__init__` (`src/screenenv/remote_screen_env.py`);
* the response classification in `Sandbox._make_request`
  (`src/screenenv/sandbox.py`).

External effects (the OS socket table, the Docker daemon, HTTP probes and
wall-clock time) are passed in explicitly: the set of used host ports is a
list, probe / call outcomes are functions from the invocation index, and
time is discrete, advancing by the configured sleep interval after each
failed probe.
-/

namespace ScreenEnv

/-! ### Port allocator

`DockerProvider._get_available_port` (provider.py lines 103-113):

    used_ports = self._get_used_ports()
    port = start_port
    while port < 65354:
        if port not in used_ports:
            return port
        port += 1
    raise PortAllocationError(...)

The loop examines the ports `start_port, start_port+1, ...` strictly below
the literal bound `65354` that appears in the source, so it performs exactly
`65354 - start_port` membership tests before raising.  `portScan` runs the
loop body on a fuel argument equal to that count; `none` models the raised
`PortAllocationError`. -/

def portScan (used : List Nat) : Nat → Nat → Option Nat
  | 0, _ => none
  | fuel + 1, port =>
    if port ∈ used then portScan used fuel (port + 1) else some port

def getAvailablePort (used : List Nat) (startPort : Nat) : Option Nat :=
  portScan used (65354 - startPort) startPort

/-- The port-allocation loop in `start_emulator` (provider.py lines 179-181):

    for port in self.ports:
        self.ports[port] = self._get_available_port(port)

Each internal port (the dict key) is looked up starting from itself; the
used-port set is re-read on every call but nothing is bound between the
iterations, so it is the same list `used` throughout.  If a lookup raises,
the loop stops: the already-processed prefix keeps its new host ports, the
rest of the dict is unchanged.  The `Bool` is `true` when the whole loop
completed without raising. -/
def allocatePortsLoop (used : List Nat) : List (Nat × Nat) → List (Nat × Nat) × Bool
  | [] => ([], true)
  | kv :: rest =>
    match getAvailablePort used kv.fst with
    | none => (kv :: rest, false)
    | some h =>
      let tail := allocatePortsLoop used rest
      ((kv.fst, h) :: tail.fst, tail.snd)

/-- The successful result of the allocation loop, `none` when it raised. -/
def allocatePorts (used : List Nat) (pm : List (Nat × Nat)) :
    Option (List (Nat × Nat)) :=
  let r := allocatePortsLoop used pm
  if r.snd then some r.fst else none

/-! ### Retry decorator

`retry` (retry_decorator.py lines 12-55):

    for attempt in range(retry_times):
        try:
            result = func(*args, **kwargs)
            return result
        except Exception as e:
            if isinstance(e, TimeoutError) and break_on_timeout:
                logger.error(...)
                break
            if attempt < retry_times - 1:
                logger.error(...); logger.info(...)
                time.sleep(retry_interval)
            else:
                logger.error(...)
                raise
    raise Exception(f"Failed to execute ... after ... attempts")

The wrapped call is modelled by `outcomes : Nat → CallOutcome α`, giving the
result of each invocation in order.  `RetryError.underlying i t` is the bare
`raise` re-raising the exception of invocation `i` (with timeout flag `t`);
`RetryError.wrapperExhausted n` is the generic `Exception` constructed after
the loop, which mentions the wrapped function's name and the configured
`retry_times = n`.  The second component of the result counts how many times
the wrapped call was invoked.  The loop is run on `remaining`, the number of
attempts left (`retry_times - attempt`); the Python guard
`attempt < retry_times - 1` holds exactly when more than one attempt is
left, i.e. `0 < remaining` at the recursive call sites below. -/

inductive CallOutcome (α : Type) where
  | success (v : α)
  | failure (isTimeout : Bool)
deriving DecidableEq, Repr

inductive RetryError where
  | underlying (attemptIdx : Nat) (isTimeout : Bool)
  | wrapperExhausted (retryTimes : Nat)
deriving DecidableEq, Repr

def RetryError.isUnderlying : RetryError → Bool
  | .underlying _ _ => true
  | .wrapperExhausted _ => false

inductive RetryResult (α : Type) where
  | ok (v : α)
  | raised (e : RetryError)
deriving DecidableEq, Repr

def retryLoop {α : Type} (outcomes : Nat → CallOutcome α) (retryTimes : Nat)
    (breakOnTimeout : Bool) : Nat → Nat → RetryResult α × Nat
  | 0, attempt => (.raised (.wrapperExhausted retryTimes), attempt)
  | remaining + 1, attempt =>
    match outcomes attempt with
    | .success v => (.ok v, attempt + 1)
    | .failure isT =>
      if isT && breakOnTimeout then
        (.raised (.wrapperExhausted retryTimes), attempt + 1)
      else if 0 < remaining then
        retryLoop outcomes retryTimes breakOnTimeout remaining (attempt + 1)
      else
        (.raised (.underlying attempt isT), attempt + 1)

def retryRun {α : Type} (retryTimes : Nat) (breakOnTimeout : Bool)
    (outcomes : Nat → CallOutcome α) : RetryResult α × Nat :=
  retryLoop outcomes retryTimes breakOnTimeout retryTimes 0

/-! ### Health-check poller

`DockerProvider._wait_for_vm_ready` (provider.py lines 115-162):

    start_time = time.time()
    timeout = self.config.timeout
    def check_health():
        if endpoint is None or port is None:
            logger.warning("... skipping healthcheck ...")
            return True
        try:
            response = requests.request(...)
            return response.status_code == 200
        except Exception:
            return False
    while time.time() - start_time < timeout:
        if check_health():
            return True
        logger.info(...)
        time.sleep(self.config.healthcheck_config.retry_interval)
    raise TimeoutError("VM failed to become ready within timeout period")

Time is discrete: the k-th health check happens at elapsed time
`k * retry_interval` (the probe itself is instantaneous, the sleep after a
failed probe advances the clock by `retry_interval`).  `probe k` tells
whether the k-th HTTP probe sees a 200 response; when the endpoint or port
is absent `check_health` returns `true` without probing.  The loop is run on
a fuel of `timeout + 1` iterations, which is never exhausted when
`retry_interval` is positive because `elapsed` then grows by at least one
per iteration and the loop stops as soon as `timeout ≤ elapsed`.  The
results carry the number of `check_health` calls made. -/

structure HealthCheckConfig where
  endpoint : Option String
  port : Option Nat
  retryInterval : Nat
deriving DecidableEq, Repr

inductive PollResult where
  | ready (checks : Nat)
  | timedOut (checks : Nat)
deriving DecidableEq, Repr

def checkHealth (cfg : HealthCheckConfig) (probe : Nat → Bool) (k : Nat) : Bool :=
  match cfg.endpoint, cfg.port with
  | some _, some _ => probe k
  | _, _ => true

def pollLoop (cfg : HealthCheckConfig) (probe : Nat → Bool) (timeLimit : Nat) :
    Nat → Nat → Nat → PollResult
  | 0, _, k => .timedOut k
  | fuel + 1, elapsed, k =>
    if elapsed < timeLimit then
      if checkHealth cfg probe k then .ready (k + 1)
      else pollLoop cfg probe timeLimit fuel (elapsed + cfg.retryInterval) (k + 1)
    else .timedOut k

def waitForVmReady (cfg : HealthCheckConfig) (probe : Nat → Bool)
    (timeLimit : Nat) : PollResult :=
  pollLoop cfg probe timeLimit (timeLimit + 1) 0 0

/-! ### Provider lifecycle

State and environment of a `DockerProvider`.  `ProviderState.container`
is the `self.container` handle (`some id` once `containers.run` returned),
`ProviderState.ports` is the `self.ports` dict as an association list in
iteration order.  `DockerBackend` packages the behaviour of the external
world during one provisioning sequence: whether the image is present /
pullable, the used host ports visible to `_get_used_ports`, whether
`containers.run` succeeds, the health-probe outcomes, and whether a
`container.stop()` / `container.remove()` pair succeeds.  `running` flags
whether a backing container is actually running on the host. -/

structure IPAddr where
  ipAddress : String
  hostPort : List (Nat × Nat)
deriving DecidableEq, Repr

structure ProviderState where
  container : Option Nat
  ports : List (Nat × Nat)
deriving DecidableEq, Repr

structure DockerBackend where
  imageExists : Bool
  pullOk : Bool
  usedPorts : List Nat
  runOk : Bool
  healthProbe : Nat → Bool
  stopOk : Bool

/-- `DockerProvider.post_init` (provider.py lines 71-77):

    self.config.lock_file.parent.mkdir(parents=True, exist_ok=True)
    if not self.config.ports_to_forward:
        raise ValueError("Ports to forward must be provided")
    self.ports = {port: port for port in self.config.ports_to_forward}

Runs at construction time: rejects an empty forward set and fills the port
dict with the identity mapping. -/
def postInit (portsToForward : List Nat) : Except String ProviderState :=
  if portsToForward.isEmpty then .error "Ports to forward must be provided"
  else .ok { container := none, ports := portsToForward.map (fun p => (p, p)) }

/-- `DockerProvider.get_ip_address` (provider.py lines 242-248):

    if not all([self.ports]):
        raise RuntimeError("VM not started - ports not allocated")
    return IPAddr(ip_address="localhost", host_port={...})

`all([self.ports])` is the truthiness of the dict itself, so the guard fires
exactly when the port dict is empty. -/
def getIpAddress (s : ProviderState) : Except String IPAddr :=
  if s.ports.isEmpty then .error "VM not started - ports not allocated"
  else .ok { ipAddress := "localhost", hostPort := s.ports }

/-- `DockerProvider.stop_emulator` (provider.py lines 262-272):

    if self.container:
        logger.info("Stopping VM...")
        try:
            self.container.stop()
            self.container.remove()
            time.sleep(WAIT_TIME)
        except Exception as e:
            logger.error(f"Error stopping container: ...")
        finally:
            self.container = None

Every exception from the stop/remove pair is caught and logged, the
`finally` clause always clears the handle, so the method never raises:
the `Except` layer records that no error escapes.  When the stop succeeds
nothing is left running; when it fails the host keeps whatever was
running. -/
def stopEmulator (b : DockerBackend) (s : ProviderState) (running : Bool) :
    Except String (ProviderState × Bool) :=
  match s.container with
  | none => .ok (s, running)
  | some _ =>
    if b.stopOk then .ok ({ s with container := none }, false)
    else .ok ({ s with container := none }, running)

inductive StartError where
  | pullError
  | portAllocationError
  | runError
  | readinessTimeout (checks : Nat)
deriving DecidableEq, Repr

structure StartOutcome where
  result : Except StartError Unit
  state : ProviderState
  running : Bool

/-- The cleanup handler of `start_emulator` (provider.py lines 232-240):

    except Exception as e:
        if self.container:
            try:
                self.container.stop()
                self.container.remove()
            except Exception:
                pass
        raise e

It stops and removes the container when a handle exists (silently ignoring
secondary failures) but does not clear `self.container`. -/
def startCleanupRunning (b : DockerBackend) (s : ProviderState) (running : Bool) : Bool :=
  match s.container with
  | none => running
  | some _ => if b.stopOk then false else running

/-- `DockerProvider.start_emulator` (provider.py lines 164-240), with the
lock acquisition kept implicit (the backend behaviour `b` is fixed for the
whole sequence, which is what holding the lock guarantees for container
ports).  Steps, in source order: image check / pull, the port-allocation
loop over `self.ports`, `containers.run` (which sets `self.container` and
starts a container on the host), then `_wait_for_vm_ready`.  Any raising
step jumps to the cleanup handler `startCleanupRunning` and the error
propagates. -/
def startEmulator (b : DockerBackend) (hc : HealthCheckConfig) (timeLimit : Nat)
    (s : ProviderState) (running : Bool) : StartOutcome :=
  if !b.imageExists && !b.pullOk then
    { result := .error .pullError, state := s,
      running := startCleanupRunning b s running }
  else
    match allocatePortsLoop b.usedPorts s.ports with
    | (pm, false) =>
      let s1 : ProviderState := { s with ports := pm }
      { result := .error .portAllocationError, state := s1,
        running := startCleanupRunning b s1 running }
    | (pm, true) =>
      let s1 : ProviderState := { s with ports := pm }
      if !b.runOk then
        { result := .error .runError, state := s1,
          running := startCleanupRunning b s1 running }
      else
        let s2 : ProviderState := { s1 with container := some 0 }
        match waitForVmReady hc b.healthProbe timeLimit with
        | .ready _ => { result := .ok (), state := s2, running := true }
        | .timedOut k =>
          { result := .error (.readinessTimeout k), state := s2,
            running := startCleanupRunning b s2 true }

/-- The provisioning wrapper in `RemoteScreenEnv.__init__`
(remote_screen_env.py lines 236-241):

    try:
        self.provider.start_emulator()
    except (Exception, KeyboardInterrupt) as e:
        logger.error(f"Error starting emulator: ...")
        self.provider.stop_emulator()
        raise e
-/
def remoteScreenEnvInit (b : DockerBackend) (hc : HealthCheckConfig)
    (timeLimit : Nat) (s : ProviderState) : StartOutcome :=
  match startEmulator b hc timeLimit s false with
  | { result := .ok v, state := st, running := r } =>
    { result := .ok v, state := st, running := r }
  | { result := .error e, state := st, running := r } =>
    match stopEmulator b st r with
    | .ok (s', r') => { result := .error e, state := s', running := r' }
    | .error _ => { result := .error e, state := st, running := r }

/-! ### HTTP response classification

`Sandbox._make_request` (sandbox.py lines 115-153), after the request has
been performed:

    response = requests.request(method, url, **kwargs)
    if response.status_code >= 400:
        request_info = {...}
        raise Exception(f"Request failed with details: ... Method ... URL ...
                          Status Code ... Response Content ...")
    return response
-/

structure HttpResponse where
  statusCode : Nat
  body : String
deriving DecidableEq, Repr

structure RequestFailure where
  method : String
  url : String
  statusCode : Nat
  responseContent : String
deriving DecidableEq, Repr

def classifyResponse (method url : String) (resp : HttpResponse) :
    Except RequestFailure HttpResponse :=
  if 400 ≤ resp.statusCode then
    .error { method := method, url := url, statusCode := resp.statusCode,
             responseContent := resp.body }
  else .ok resp

/-! ### Helper lemmas about the retry loop -/

/-- If the first `K` invocations raise non-timeout errors and invocation `K`
(the `K+1`-st call) succeeds, the loop started with `K + 1` attempts left
returns the success value after exactly `K + 1` further invocations. -/
theorem retryLoop_ok {α : Type} (outcomes : Nat → CallOutcome α) (rt : Nat)
    (bot : Bool) (v : α) :
    ∀ K a, (∀ j, j < K → outcomes (a + j) = .failure false) →
      outcomes (a + K) = .success v →
      retryLoop outcomes rt bot (K + 1) a = (.ok v, a + (K + 1)) := by
  intro K
  induction K with
  | zero =>
    intro a _ hs
    simp only [Nat.add_zero] at hs
    simp [retryLoop, hs]
  | succ K ih =>
    intro a hf hs
    have h0 : outcomes a = .failure false := by simpa using hf 0 (Nat.succ_pos K)
    have step : retryLoop outcomes rt bot (K + 1 + 1) a
        = retryLoop outcomes rt bot (K + 1) (a + 1) := by
      simp [retryLoop, h0]
    have hf' : ∀ j, j < K → outcomes (a + 1 + j) = .failure false := by
      intro j hj
      rw [(by omega : a + 1 + j = a + (j + 1))]
      exact hf (j + 1) (by omega)
    have hs' : outcomes (a + 1 + K) = .success v := by
      rw [(by omega : a + 1 + K = a + (K + 1))]; exact hs
    rw [step, ih (a + 1) hf' hs', (by omega : a + 1 + (K + 1) = a + (K + 1 + 1))]

/-- If every invocation up to index `K` raises a non-timeout error, the loop
started with `K + 1` attempts left re-raises the error of the last
invocation after exactly `K + 1` further invocations. -/
theorem retryLoop_allfail {α : Type} (outcomes : Nat → CallOutcome α) (rt : Nat)
    (bot : Bool) :
    ∀ K a, (∀ j, j ≤ K → outcomes (a + j) = .failure false) →
      retryLoop outcomes rt bot (K + 1) a
        = ((.raised (.underlying (a + K) false) : RetryResult α), a + (K + 1)) := by
  intro K
  induction K with
  | zero =>
    intro a hf
    have h0 : outcomes a = .failure false := by simpa using hf 0 (Nat.le_refl 0)
    simp [retryLoop, h0]
  | succ K ih =>
    intro a hf
    have h0 : outcomes a = .failure false := by simpa using hf 0 (Nat.zero_le _)
    have step : retryLoop outcomes rt bot (K + 1 + 1) a
        = retryLoop outcomes rt bot (K + 1) (a + 1) := by
      simp [retryLoop, h0]
    have hf' : ∀ j, j ≤ K → outcomes (a + 1 + j) = .failure false := by
      intro j hj
      rw [(by omega : a + 1 + j = a + (j + 1))]
      exact hf (j + 1) (by omega)
    rw [step, ih (a + 1) hf', (by omega : a + 1 + K = a + (K + 1)),
      (by omega : a + 1 + (K + 1) = a + (K + 1 + 1))]

/-- C2: given an underlying call that fails with non-timeout errors on the
first `N - 1` invocations and succeeds on the `N`-th, `retry` returns the
success value after exactly `N` invocations.  The claim's second half is
amended: when every invocation fails with a non-timeout error, the wrapper
still makes exactly `N` invocations but then re-raises the last underlying
error itself (the bare `raise` on the final attempt); the message naming the
wrapped call and the attempt count is only logged, and the aggregate
`Exception` built after the loop is never reached on this path. -/
theorem c2_retry_success_and_reraise {α : Type} (N : Nat) (hN : 0 < N)
    (bot : Bool) (outcomes : Nat → CallOutcome α) :
    (∀ v, (∀ i, i < N - 1 → outcomes i = .failure false) →
        outcomes (N - 1) = .success v →
        retryRun N bot outcomes = (.ok v, N))
    ∧ ((∀ i, i < N → outcomes i = .failure false) →
        retryRun N bot outcomes
          = ((.raised (.underlying (N - 1) false) : RetryResult α), N)) := by
  have hN1 : N - 1 + 1 = N := by omega
  constructor
  · intro v hf hs
    have h := retryLoop_ok outcomes N bot v (N - 1) 0
      (fun j hj => by simpa using hf j hj) (by simpa using hs)
    rw [hN1] at h
    simpa [retryRun] using h
  · intro hf
    have h := retryLoop_allfail outcomes N bot (N - 1) 0
      (fun j hj => by simpa using hf j (by omega))
    rw [hN1] at h
    simpa [retryRun] using h

/-- Witness for C2: three non-timeout failures then a success, with
`retry_times = 4`, returns the success value after 4 invocations; with
`retry_times = 3` the same call stream exhausts all 3 attempts and
re-raises the third underlying error. -/
theorem c2_retry_success_and_reraise_witness :
    retryRun 4 true (fun i => if i < 3 then .failure false else .success 42)
      = (.ok 42, 4)
    ∧ retryRun 3 true (fun i => if i < 3 then .failure false else .success 42)
      = ((.raised (.underlying 2 false) : RetryResult Nat), 3) := by
  constructor
  · exact (c2_retry_success_and_reraise 4 (by omega) true _).1 42
      (fun i hi => by simp; omega) (by simp)
  · exact (c2_retry_success_and_reraise 3 (by omega) true _).2
      (fun i hi => by simp; omega)

/-- Counterexample to C2 as stated: with `retry_times = 2` and a call that
always fails with a non-timeout error, the wrapper raises the re-raised
underlying error of the last invocation, not the wrapper-level aggregate
error that names the wrapped call and the attempt count. -/
theorem c2_counterexample :
    retryRun 2 true (fun _ => (CallOutcome.failure false : CallOutcome Nat))
      = (.raised (.underlying 1 false), 2)
    ∧ (RetryError.underlying 1 false).isUnderlying = true := ⟨rfl, rfl⟩

/-- C3 (amended): with `break_on_timeout = true` and an underlying call
whose first invocation raises a timeout error, the wrapper makes exactly
one invocation and raises immediately with no further retries; the raised
error, however, is the wrapper's aggregate error naming the wrapped call
and the configured attempt count (built after the `break`), not the
original timeout error, which is only logged. -/
theorem c3_timeout_breaks_immediately {α : Type} (N : Nat) (hN : 0 < N)
    (outcomes : Nat → CallOutcome α) (h0 : outcomes 0 = .failure true) :
    retryRun N true outcomes = ((.raised (.wrapperExhausted N) : RetryResult α), 1) := by
  obtain ⟨m, rfl⟩ : ∃ m, N = m + 1 := ⟨N - 1, by omega⟩
  simp [retryRun, retryLoop, h0]

/-- Witness for C3: `retry_times = 3`, every invocation a timeout error. -/
theorem c3_timeout_breaks_immediately_witness :
    retryRun 3 true (fun _ => (CallOutcome.failure true : CallOutcome Nat))
      = (.raised (.wrapperExhausted 3), 1) :=
  c3_timeout_breaks_immediately 3 (by omega) _ rfl

/-- Counterexample to C3 as stated: with `retry_times = 3`,
`break_on_timeout = true` and a first invocation raising a timeout error,
the error reaching the caller is the generic wrapper `Exception` built
after the loop, not the original underlying timeout error. -/
theorem c3_counterexample :
    retryRun 3 true (fun _ => (CallOutcome.failure true : CallOutcome Nat))
      = (.raised (.wrapperExhausted 3), 1)
    ∧ (RetryError.wrapperExhausted 3).isUnderlying = false := ⟨rfl, rfl⟩

/-! ### Helper lemmas about the health-check poller -/

theorem checkHealth_of_configured (cfg : HealthCheckConfig) (probe : Nat → Bool)
    (k : Nat) (hE : cfg.endpoint.isSome = true) (hP : cfg.port.isSome = true) :
    checkHealth cfg probe k = probe k := by
  obtain ⟨e, he⟩ := Option.isSome_iff_exists.mp hE
  obtain ⟨p, hp⟩ := Option.isSome_iff_exists.mp hP
  simp [checkHealth, he, hp]

/-- When the probe first succeeds on its `K+1`-st call and that call still
happens strictly before the deadline, the loop reports ready after exactly
`K + 1` health checks. -/
theorem pollLoop_ready (cfg : HealthCheckConfig) (probe : Nat → Bool)
    (tl : Nat) (hE : cfg.endpoint.isSome = true) (hP : cfg.port.isSome = true) :
    ∀ K fuel elapsed k, K < fuel →
      (∀ j, j < K → probe (k + j) = false) → probe (k + K) = true →
      elapsed + K * cfg.retryInterval < tl →
      pollLoop cfg probe tl fuel elapsed k = .ready (k + K + 1) := by
  intro K
  induction K with
  | zero =>
    intro fuel elapsed k hfuel _ hs ht
    obtain ⟨f, rfl⟩ : ∃ f, fuel = f + 1 := ⟨fuel - 1, by omega⟩
    have hc : checkHealth cfg probe k = true := by
      rw [checkHealth_of_configured cfg probe k hE hP]
      simpa using hs
    have ht' : elapsed < tl := by omega
    simp [pollLoop, ht', hc]
  | succ K ih =>
    intro fuel elapsed k hfuel hf hs ht
    obtain ⟨f, rfl⟩ : ∃ f, fuel = f + 1 := ⟨fuel - 1, by omega⟩
    have hlt : elapsed < tl := by
      have : elapsed ≤ elapsed + (K + 1) * cfg.retryInterval := Nat.le_add_right _ _
      omega
    have hc : checkHealth cfg probe k = false := by
      rw [checkHealth_of_configured cfg probe k hE hP]
      simpa using hf 0 (Nat.succ_pos K)
    have step : pollLoop cfg probe tl (f + 1) elapsed k
        = pollLoop cfg probe tl f (elapsed + cfg.retryInterval) (k + 1) := by
      simp [pollLoop, hlt, hc]
    have hf' : ∀ j, j < K → probe (k + 1 + j) = false := by
      intro j hj
      rw [(by omega : k + 1 + j = k + (j + 1))]
      exact hf (j + 1) (by omega)
    have hs' : probe (k + 1 + K) = true := by
      rw [(by omega : k + 1 + K = k + (K + 1))]; exact hs
    have ht' : elapsed + cfg.retryInterval + K * cfg.retryInterval < tl := by
      have : elapsed + cfg.retryInterval + K * cfg.retryInterval
          = elapsed + (K + 1) * cfg.retryInterval := by ring
      omega
    rw [step, ih f (elapsed + cfg.retryInterval) (k + 1) (by omega) hf' hs' ht',
      (by omega : k + 1 + K + 1 = k + (K + 1) + 1)]

/-- When no probe ever succeeds and the fuel covers the whole window, the
loop times out, and the deadline has elapsed by then: the `n` health checks
performed span at least `tl` time units of sleeping. -/
theorem pollLoop_timeout (cfg : HealthCheckConfig) (probe : Nat → Bool)
    (tl : Nat) (hE : cfg.endpoint.isSome = true) (hP : cfg.port.isSome = true)
    (hfail : ∀ j, probe j = false) :
    ∀ fuel elapsed k, tl ≤ elapsed + fuel * cfg.retryInterval →
      ∃ n, pollLoop cfg probe tl fuel elapsed k = .timedOut (k + n)
        ∧ tl ≤ elapsed + n * cfg.retryInterval := by
  intro fuel
  induction fuel with
  | zero =>
    intro elapsed k h
    exact ⟨0, rfl, by simpa using h⟩
  | succ fuel ih =>
    intro elapsed k h
    by_cases hlt : elapsed < tl
    · have hc : checkHealth cfg probe k = false := by
        rw [checkHealth_of_configured cfg probe k hE hP]
        exact hfail k
      have step : pollLoop cfg probe tl (fuel + 1) elapsed k
          = pollLoop cfg probe tl fuel (elapsed + cfg.retryInterval) (k + 1) := by
        simp [pollLoop, hlt, hc]
      have h' : tl ≤ elapsed + cfg.retryInterval + fuel * cfg.retryInterval := by
        have : elapsed + cfg.retryInterval + fuel * cfg.retryInterval
            = elapsed + (fuel + 1) * cfg.retryInterval := by ring
        omega
      obtain ⟨n, hn, hb⟩ := ih (elapsed + cfg.retryInterval) (k + 1) h'
      refine ⟨n + 1, ?_, ?_⟩
      · rw [step, hn, (by omega : k + 1 + n = k + (n + 1))]
      · have : elapsed + cfg.retryInterval + n * cfg.retryInterval
            = elapsed + (n + 1) * cfg.retryInterval := by ring
        omega
    · refine ⟨0, ?_, by omega⟩
      simp [pollLoop, hlt]

/-- C5: for a health-check configuration with endpoint and port present and
a positive polling interval, (a) if the probe fails on its first `K` calls
and succeeds on call `K + 1`, with `interval * (K + 1) < timeout`, the
poller returns ready having issued exactly `K + 1` probe calls; (b) if no
probe ever succeeds, the poller raises the readiness timeout error, and
only once the polled time has reached the overall timeout. -/
theorem c5_health_poller (cfg : HealthCheckConfig) (probe : Nat → Bool)
    (tl K : Nat) (hE : cfg.endpoint.isSome = true) (hP : cfg.port.isSome = true)
    (hI : 0 < cfg.retryInterval) :
    ((∀ j, j < K → probe j = false) → probe K = true →
        cfg.retryInterval * (K + 1) < tl →
        waitForVmReady cfg probe tl = .ready (K + 1))
    ∧ ((∀ j, probe j = false) →
        ∃ n, waitForVmReady cfg probe tl = .timedOut n
          ∧ tl ≤ n * cfg.retryInterval) := by
  constructor
  · intro hf hs ht
    have hK1 : K + 1 ≤ cfg.retryInterval * (K + 1) :=
      Nat.le_mul_of_pos_left (K + 1) hI
    have hKt : K * cfg.retryInterval < tl := by
      have : K * cfg.retryInterval ≤ cfg.retryInterval * (K + 1) := by
        calc K * cfg.retryInterval ≤ (K + 1) * cfg.retryInterval :=
              Nat.mul_le_mul_right _ (Nat.le_succ K)
          _ = cfg.retryInterval * (K + 1) := Nat.mul_comm _ _
      omega
    have h := pollLoop_ready cfg probe tl hE hP K (tl + 1) 0 0 (by omega)
      (fun j hj => by simpa using hf j hj) (by simpa using hs) (by omega)
    simpa [waitForVmReady] using h
  · intro hfail
    have hfuel : tl ≤ 0 + (tl + 1) * cfg.retryInterval := by
      have : tl + 1 ≤ (tl + 1) * cfg.retryInterval :=
        Nat.le_mul_of_pos_right (tl + 1) hI
      omega
    obtain ⟨n, hn, hb⟩ := pollLoop_timeout cfg probe tl hE hP hfail (tl + 1) 0 0 hfuel
    exact ⟨n, by simpa [waitForVmReady] using hn, by simpa using hb⟩

/-- Witness for C5: interval 2, timeout 10, probe failing once then
succeeding on its second call (`K = 1`, `2 * 2 < 10`): ready after exactly
2 probe calls; and with a never-succeeding probe the poller times out after
5 probe calls spanning the 10-unit window. -/
theorem c5_health_poller_witness :
    waitForVmReady ⟨some "/health", some 7860, 2⟩ (fun k => k == 1) 10 = .ready 2
    ∧ ∃ n, waitForVmReady ⟨some "/health", some 7860, 2⟩ (fun _ => false) 10
        = .timedOut n ∧ 10 ≤ n * 2 := by
  constructor
  · exact (c5_health_poller ⟨some "/health", some 7860, 2⟩ (fun k => k == 1) 10 1
      rfl rfl (by decide)).1
      (fun j hj => by obtain rfl : j = 0 := (by omega); rfl) rfl (by decide)
  · exact (c5_health_poller ⟨some "/health", some 7860, 2⟩ (fun _ => false) 10 0
      rfl rfl (by decide)).2 (fun _ => rfl)

/-! ### Port allocator and allocation-loop claims -/

/-- C6, evaluation of the code at the failing input: the scan bound in the
source is the literal `65354`, not the maximum valid port number `65535`.
With no port in use at all, a lookup starting at `65354` raises
`PortAllocationError` even though the valid free ports `65354 ... 65535`
exist, while a lookup starting one below still succeeds. -/
theorem c6_port_scan_misses_top_of_range :
    getAvailablePort [] 65354 = none
    ∧ getAvailablePort [] 65353 = some 65353
    ∧ 65354 ≤ 65535 := ⟨rfl, rfl, by omega⟩

/-- C1, evaluation of the code at the failing input: one provisioning
attempt forwarding the internal ports `8080` and `8081`, on a host where
only port `8080` is in use, assigns the host port `8081` to both internal
ports of the same instance.  Each iteration of the allocation loop re-reads
the used ports of the OS and of running containers, but the ports chosen by
the earlier iterations of the same loop are bound only when the container
starts, after the loop, so the second lookup does not see the first
choice. -/
theorem c1_same_instance_port_collision :
    allocatePorts [8080] [(8080, 8080), (8081, 8081)]
      = some [(8080, 8081), (8081, 8081)]
    ∧ 8080 < 8081 := ⟨by decide, by omega⟩

/-! ### Provider lifecycle claims -/

theorem allocatePortsLoop_keys (used : List Nat) :
    ∀ pm : List (Nat × Nat),
      ((allocatePortsLoop used pm).fst).map Prod.fst = pm.map Prod.fst := by
  intro pm
  induction pm with
  | nil => rfl
  | cons kv rest ih =>
    cases h : getAvailablePort used kv.fst with
    | none => simp [allocatePortsLoop, h]
    | some hp => simp [allocatePortsLoop, h, ih]

/-- Whatever happens during `start_emulator`, the key set of `self.ports`
is unchanged: the allocation loop rewrites only the values, and no other
step touches the dict. -/
theorem startEmulator_ports_keys (b : DockerBackend) (hc : HealthCheckConfig)
    (tl : Nat) (s : ProviderState) (r : Bool) :
    ((startEmulator b hc tl s r).state).ports.map Prod.fst
      = s.ports.map Prod.fst := by
  unfold startEmulator
  split
  · rfl
  · split
    case _ pm heq =>
      have h := allocatePortsLoop_keys b.usedPorts s.ports
      rw [heq] at h
      simpa using h
    case _ pm heq =>
      have h := allocatePortsLoop_keys b.usedPorts s.ports
      rw [heq] at h
      split
      · simpa using h
      · split <;> simpa using h

/-- C10: after construction the port map holds exactly the configured
forward ports, each mapped to itself, and it is non-empty; `start_emulator`
may rewrite the host-port values but never the key list. -/
theorem c10_port_map_invariant (pf : List Nat) (hne : pf ≠ []) :
    ∃ s, postInit pf = .ok s
      ∧ s.container = none
      ∧ s.ports = pf.map (fun p => (p, p))
      ∧ s.ports.map Prod.fst = pf
      ∧ s.ports.isEmpty = false
      ∧ ∀ b hc tl r, ((startEmulator b hc tl s r).state).ports.map Prod.fst = pf := by
  have hempty : pf.isEmpty = false := by
    cases pf with
    | nil => exact absurd rfl hne
    | cons a l => rfl
  refine ⟨{ container := none, ports := pf.map (fun p => (p, p)) }, ?_, rfl, rfl, ?_, ?_, ?_⟩
  · simp [postInit, hempty]
  · simp [Function.comp_def]
  · cases pf with
    | nil => exact absurd rfl hne
    | cons a l => rfl
  · intro b hc tl r
    rw [startEmulator_ports_keys]
    simp [Function.comp_def]

/-- Witness for C10 at the forward set `{7860}` used by the orchestrator. -/
theorem c10_port_map_invariant_witness :
    ∃ s, postInit [7860] = .ok s
      ∧ s.container = none
      ∧ s.ports = [7860].map (fun p => (p, p))
      ∧ s.ports.map Prod.fst = [7860]
      ∧ s.ports.isEmpty = false
      ∧ ∀ b hc tl r, ((startEmulator b hc tl s r).state).ports.map Prod.fst = [7860] :=
  c10_port_map_invariant [7860] (by simp)

/-- C8, evaluation of the code at the failing input: a provider constructed
with forward set `{7860}` on which `start_emulator` was never called.  The
guard in `get_ip_address` tests `not all([self.ports])`, i.e. whether the
port dict is empty, but `post_init` has already filled the dict with the
identity mapping at construction time, so the guard never fires and
`get_ip_address` returns an address built from the unallocated identity
mapping instead of raising the not-started error. -/
theorem c8_get_ip_address_before_start :
    postInit [7860] = .ok { container := none, ports := [(7860, 7860)] }
    ∧ getIpAddress { container := none, ports := [(7860, 7860)] }
      = .ok { ipAddress := "localhost", hostPort := [(7860, 7860)] } := ⟨rfl, rfl⟩

theorem startCleanupRunning_false (b : DockerBackend) (st : ProviderState) :
    startCleanupRunning b st false = false := by
  cases h : st.container <;> simp [startCleanupRunning, h]

/-- A stop on a host where nothing of ours is running keeps nothing
running, whatever the backend does. -/
theorem stopEmulator_not_running (b : DockerBackend) (st : ProviderState) :
    ∃ st', stopEmulator b st false = .ok (st', false) := by
  cases h : st.container with
  | none => exact ⟨st, by simp [stopEmulator, h]⟩
  | some c =>
    cases hb : b.stopOk
    · exact ⟨{ st with container := none }, by simp [stopEmulator, h, hb]⟩
    · exact ⟨{ st with container := none }, by simp [stopEmulator, h, hb]⟩

/-- C4: provided the backend honours stop requests during cleanup, a
provisioning sequence that fails after the image pull (port allocation,
container launch, or the health-check wait) leaves no container running
when the error propagates, both at the provider level and through the
orchestrator's catch-all; and a successful return happens only after the
health-check poller reported ready. -/
theorem c4_teardown_on_provisioning_failure (b : DockerBackend)
    (hc : HealthCheckConfig) (tl : Nat) (s : ProviderState)
    (hStop : b.stopOk = true) :
    ((startEmulator b hc tl s false).result = .ok () →
        ∃ k, waitForVmReady hc b.healthProbe tl = .ready k)
    ∧ (∀ e, (startEmulator b hc tl s false).result = .error e →
        (startEmulator b hc tl s false).running = false)
    ∧ (∀ e, (remoteScreenEnvInit b hc tl s).result = .error e →
        (remoteScreenEnvInit b hc tl s).running = false) := by
  have main : ((startEmulator b hc tl s false).result = .ok () →
        ∃ k, waitForVmReady hc b.healthProbe tl = .ready k)
      ∧ ∀ e, (startEmulator b hc tl s false).result = .error e →
        (startEmulator b hc tl s false).running = false := by
    unfold startEmulator
    split
    · exact ⟨fun h => by simp at h, fun e _ => by simp [startCleanupRunning_false]⟩
    · split
      next pm heq =>
        exact ⟨fun h => by simp at h, fun e _ => by simp [startCleanupRunning_false]⟩
      next pm heq =>
        split
        · exact ⟨fun h => by simp at h, fun e _ => by simp [startCleanupRunning_false]⟩
        · split
          next k hwait => exact ⟨fun _ => ⟨k, hwait⟩, fun e he => by simp at he⟩
          next k hwait =>
            refine ⟨fun h => by simp at h, fun e _ => ?_⟩
            simp [startCleanupRunning, hStop]
  refine ⟨main.1, main.2, ?_⟩
  intro e he
  rcases hSE : startEmulator b hc tl s false with ⟨res, st, r⟩
  cases res with
  | ok v =>
    have heq : remoteScreenEnvInit b hc tl s
        = { result := .ok v, state := st, running := r } := by
      unfold remoteScreenEnvInit
      rw [hSE]
    rw [heq] at he
    simp at he
  | error e' =>
    have hres : (startEmulator b hc tl s false).result = .error e' := by rw [hSE]
    have hr : r = false := by
      have h2 := main.2 e' hres
      rw [hSE] at h2
      exact h2
    subst hr
    obtain ⟨st', hstop⟩ := stopEmulator_not_running b st
    have heq : remoteScreenEnvInit b hc tl s
        = { result := .error e', state := st', running := false } := by
      unfold remoteScreenEnvInit
      rw [hSE]
      simp [hstop]
    rw [heq]

/-- Witness for C4: a backend where everything succeeds provisions only
after the poller reports ready; a backend whose container launch fails
ends with nothing running. -/
theorem c4_teardown_on_provisioning_failure_witness :
    (∃ k, waitForVmReady ⟨some "/health", some 7860, 2⟩ (fun _ => true) 10 = .ready k)
    ∧ (startEmulator ⟨true, true, [], false, fun _ => true, true⟩
        ⟨some "/health", some 7860, 2⟩ 10 ⟨none, [(7860, 7860)]⟩ false).running = false :=
  ⟨(c4_teardown_on_provisioning_failure ⟨true, true, [], true, fun _ => true, true⟩
      ⟨some "/health", some 7860, 2⟩ 10 ⟨none, [(7860, 7860)]⟩ rfl).1 rfl,
   (c4_teardown_on_provisioning_failure ⟨true, true, [], false, fun _ => true, true⟩
      ⟨some "/health", some 7860, 2⟩ 10 ⟨none, [(7860, 7860)]⟩ rfl).2.1 .runError rfl⟩

/-- C7: `stop_emulator` never raises (the stop/remove pair is guarded by a
catch-all and the handle is cleared in the `finally` block), it always ends
with no container handle and the port map untouched, nothing is left
running when nothing was running or when the backend honours the stop, and
a second consecutive call is an exact no-op. -/
theorem c7_stop_idempotent (b : DockerBackend) (s : ProviderState) (running : Bool) :
    ∃ st r', stopEmulator b s running = .ok (st, r')
      ∧ st.container = none
      ∧ st.ports = s.ports
      ∧ (running = false → r' = false)
      ∧ (b.stopOk = true → ∀ c, s.container = some c → r' = false)
      ∧ stopEmulator b st r' = .ok (st, r') := by
  cases h : s.container with
  | none =>
    exact ⟨s, running, by simp [stopEmulator, h], h, rfl, fun hr => hr,
      fun _ c hc => Option.noConfusion hc, by simp [stopEmulator, h]⟩
  | some c =>
    cases hb : b.stopOk
    · exact ⟨{ s with container := none }, running, by simp [stopEmulator, h, hb],
        rfl, rfl, fun hr => hr, fun hs => Bool.noConfusion hs, by simp [stopEmulator]⟩
    · exact ⟨{ s with container := none }, false, by simp [stopEmulator, h, hb],
        rfl, rfl, fun _ => rfl, fun _ _ _ => rfl, by simp [stopEmulator]⟩

/-- Witness for C7: stopping a provider that holds a container handle, on a
backend that honours the stop. -/
theorem c7_stop_idempotent_witness :
    ∃ st r', stopEmulator ⟨true, true, [], true, fun _ => true, true⟩
        ⟨some 5, [(7860, 8000)]⟩ true = .ok (st, r')
      ∧ st.container = none
      ∧ st.ports = (⟨some 5, [(7860, 8000)]⟩ : ProviderState).ports
      ∧ (true = false → r' = false)
      ∧ ((⟨true, true, [], true, fun _ => true, true⟩ : DockerBackend).stopOk = true →
          ∀ c, (⟨some 5, [(7860, 8000)]⟩ : ProviderState).container = some c → r' = false)
      ∧ stopEmulator ⟨true, true, [], true, fun _ => true, true⟩ st r' = .ok (st, r') :=
  c7_stop_idempotent ⟨true, true, [], true, fun _ => true, true⟩
    ⟨some 5, [(7860, 8000)]⟩ true

/-! ### HTTP response classification claims -/

/-- C9 (amended): 2xx responses are returned as success, and responses with
status at or above 400 raise a structured error carrying the method, URL,
status code and response body; but the guard is `status_code >= 400`, so
informational and redirect responses (1xx, 3xx) are also returned as
success rather than raised. -/
theorem c9_response_classification (m u : String) (r : HttpResponse) :
    (200 ≤ r.statusCode ∧ r.statusCode < 300 → classifyResponse m u r = .ok r)
    ∧ (400 ≤ r.statusCode →
        classifyResponse m u r
          = .error { method := m, url := u, statusCode := r.statusCode,
                     responseContent := r.body })
    ∧ (r.statusCode < 400 → classifyResponse m u r = .ok r) := by
  refine ⟨fun h => ?_, fun h => ?_, fun h => ?_⟩
  · unfold classifyResponse; rw [if_neg (by omega)]
  · unfold classifyResponse; rw [if_pos h]
  · unfold classifyResponse; rw [if_neg (by omega)]

/-- Witness for C9: a 204 response is returned, a 500 response raises the
structured error. -/
theorem c9_response_classification_witness :
    classifyResponse "GET" "http://localhost:7860/api/health" ⟨204, ""⟩ = .ok ⟨204, ""⟩
    ∧ classifyResponse "POST" "http://localhost:7860/api/execute" ⟨500, "boom"⟩
      = .error ⟨"POST", "http://localhost:7860/api/execute", 500, "boom"⟩ :=
  ⟨(c9_response_classification "GET" "http://localhost:7860/api/health" ⟨204, ""⟩).1
      (by decide),
   (c9_response_classification "POST" "http://localhost:7860/api/execute"
      ⟨500, "boom"⟩).2.1 (by decide)⟩

/-- Counterexample to C9 as stated: a 302 response has a non-2xx status,
yet `_make_request` returns it as a success, because its guard only fires
for status codes at or above 400. -/
theorem c9_counterexample :
    classifyResponse "GET" "http://localhost:7860/api/screenshot" ⟨302, "redirect"⟩
      = .ok ⟨302, "redirect"⟩
    ∧ 300 ≤ 302 := ⟨rfl, by omega⟩

end ScreenEnv
